import Mathlib

/-!
Verification of the container-detection module (`src/modules/container.rs`)
of the starship repository, as a shallow embedding in Lean 4.

The filesystem is modelled as a pair of pure maps (existence and
readable-content per path); Rust `io::Result<String>` from `read_file`
becomes `Option String` (`none` = read error).  String manipulation from
the Rust standard library (`str::lines`, `strip_prefix`, `trim_matches`,
`rsplit_once`, `str::trim`) is modelled over `List Char` with structural
recursion so that everything evaluates by `decide` / `rfl`.
-/

/-- A filesystem state as the probes observe it: which logical paths exist,
and what `utils::read_file` returns for each path (`none` on any I/O or
decoding error, matching `io::Result::Err`). -/
structure FS where
  fileExists : String → Bool
  read_file : String → Option String

/-- The fields of `ContainerConfig` that the module consumes
(`disabled`, `use_container_name`, `format`, `symbol`, `style`); the style
value is opaque to this module and modelled as a string. -/
structure ContainerConfig where
  disabled : Bool
  use_container_name : Bool
  format : String
  symbol : String
  style : String

/-- Split a character list at every newline, keeping empty pieces
(model of the separator structure underlying Rust `str::lines`). -/
def splitOnNlList : List Char → List (List Char)
  | [] => [[]]
  | c :: cs =>
    if c = '\n' then [] :: splitOnNlList cs
    else
      match splitOnNlList cs with
      | [] => [[c]]
      | l :: ls => (c :: l) :: ls

/-- Drop one trailing carriage return, as Rust `lines` does for a line
terminated by `\r\n`. -/
def stripCRList (l : List Char) : List Char :=
  match l.getLast? with
  | some c => if c = '\r' then l.dropLast else l
  | none => l

/-- Model of Rust `str::lines`: split at `\n`, strip the `\r` of a `\r\n`
terminator, and do not yield a final empty line after a trailing
terminator.  A last line without a terminator keeps any trailing `\r`. -/
def rustLinesList (l : List Char) : List (List Char) :=
  let parts := splitOnNlList l
  match parts.getLast? with
  | some last =>
    if last = [] then parts.dropLast.map stripCRList
    else parts.dropLast.map stripCRList ++ [last]
  | none => []

/-- Model of Rust `str::trim_matches(c)`: repeatedly remove `c` from both
ends. -/
def trimMatchesList (c : Char) (l : List Char) : List Char :=
  ((l.dropWhile (fun x => x = c)).reverse.dropWhile (fun x => x = c)).reverse

/-- Model of Rust `str::split_once(c)`: split at the first occurrence of
`c`, or `none` when `c` does not occur. -/
def splitOnceList (c : Char) : List Char → Option (List Char × List Char)
  | [] => none
  | x :: xs =>
    if x = c then some ([], xs)
    else (splitOnceList c xs).map (fun p => (x :: p.1, p.2))

/-- Model of Rust `str::rsplit_once(c)`: split at the last occurrence of
`c`, returning (part before, part after). -/
def rsplitOnceList (c : Char) (l : List Char) : Option (List Char × List Char) :=
  (splitOnceList c l.reverse).map (fun p => (p.2.reverse, p.1.reverse))

/-- Model of Rust `str::trim`: remove whitespace from both ends. -/
def trimList (l : List Char) : List Char :=
  ((l.dropWhile Char.isWhitespace).reverse.dropWhile Char.isWhitespace).reverse

/-- The per-line value processing of `container_name` for the
`/run/.containerenv` probe: after the `name=` / `image=` prefix has been
stripped, trim surrounding double quotes; in image mode additionally keep
only what follows the last `/` (via `rsplit_once`, whole value when there
is no `/`). -/
def processValueList (use_container_name : Bool) (value : List Char) : List Char :=
  let name := trimMatchesList '"' value
  if use_container_name then name
  else
    match rsplitOnceList '/' name with
    | some p => p.2
    | none => name

/-- The parse of a successfully read `/run/.containerenv` buffer
(the closure passed to `map` in `container_name`): the first line starting
with the selected prefix is processed by `processValueList`; when no line
matches, the fallback is `"podman"`. -/
def parseContainerEnv (use_container_name : Bool) (buf : String) : String :=
  let prefChars := if use_container_name then "name=".data else "image=".data
  (((rustLinesList buf.data).findSome? fun line =>
      if prefChars.isPrefixOf line then
        some (String.mk (processValueList use_container_name (line.drop prefChars.length)))
      else none)).getD "podman"

/-- The detection chain `container_name` of `src/modules/container.rs`:
OpenVZ marker, OCI marker, `/run/.containerenv` (returning
`name_result.ok()` unconditionally once the file exists), the
`/run/systemd/container` content probe with the `wsl` suppression, and the
`/.dockerenv` marker. -/
def container_name (fs : FS) (config : ContainerConfig) : Option String :=
  if fs.fileExists "/proc/vz" && !fs.fileExists "/proc/bc" then
    -- OpenVZ
    some "OpenVZ"
  else if fs.fileExists "/run/host/container-manager" then
    -- OCI
    some "OCI"
  else if fs.fileExists "/run/.containerenv" then
    -- podman and others
    (fs.read_file "/run/.containerenv").map (parseContainerEnv config.use_container_name)
  else
    match fs.read_file "/run/systemd/container" with
    | some s =>
      if trimList s.data = "docker".data then some "Docker"
      else if trimList s.data = "wsl".data then
        -- suppressed: fall through to the /.dockerenv probe
        (if fs.fileExists "/.dockerenv" then some "Docker" else none)
      else some "Systemd"
    | none =>
      if fs.fileExists "/.dockerenv" then some "Docker" else none

/-- A rendered output segment: text with an optional style. -/
structure Segment where
  text : String
  style : Option String
deriving DecidableEq

/-- The three resolver callbacks the module hands to the formatter
(`map_meta`, `map_style`, `map` in the source). -/
structure Resolvers where
  metaVar : String → Option String
  styleVar : String → Option (Except String String)
  var : String → Option (Except String String)

/-- The resolvers bound by `module` for a detected `name`: `"symbol"`
resolves to the configured symbol, `"style"` to the configured style,
`"name"` to the detected name; every other identifier resolves to
`none`. -/
def resolversFor (config : ContainerConfig) (name : String) : Resolvers where
  metaVar := fun v => if v = "symbol" then some config.symbol else none
  styleVar := fun v => if v = "style" then some (Except.ok config.style) else none
  var := fun v => if v = "name" then some (Except.ok name) else none

/-- Modelled from the spec: the template formatter (`StringFormatter`,
whose source is not part of the provided files).  Its observable behaviour
at this call site is a function from the template string and the three
resolvers to either a format error message or the rendered segment
list. -/
def Formatter : Type := String → Resolvers → Except String (List Segment)

/-- The module's observable outcome: the optional segment list and the
warnings emitted through the logging collaborator. -/
structure ModuleResult where
  output : Option (List Segment)
  logs : List String
deriving DecidableEq

/-- The Linux `module` function: return nothing when disabled, run
`container_name`, drive the formatter with the three resolvers, and on
formatter failure log a warning and return nothing. -/
def module (F : Formatter) (fs : FS) (config : ContainerConfig) : ModuleResult :=
  if config.disabled then ⟨none, []⟩
  else
    match container_name fs config with
    | none => ⟨none, []⟩
    | some name =>
      match F config.format (resolversFor config name) with
      | Except.ok segments => ⟨some segments, []⟩
      | Except.error e => ⟨none, ["Error in module `container`: \n" ++ e]⟩

/-- The non-Linux `module` function (`cfg(not(target_os = "linux"))`):
unconditionally `None`, for every context. -/
def module_non_linux (_F : Formatter) (_fs : FS) (_config : ContainerConfig) :
    Option ModuleResult :=
  none

/-- A configuration with everything enabled; the template fields are the
repository defaults' shape and are irrelevant to detection. -/
def cfgImageMode : ContainerConfig :=
  ⟨false, false, "[$symbol \\[$name\\]]($style) ", "⬢", "red bold dimmed"⟩

/-- Like `cfgImageMode` but selecting container-name mode. -/
def cfgNameMode : ContainerConfig :=
  ⟨false, true, "[$symbol \\[$name\\]]($style) ", "⬢", "red bold dimmed"⟩

/-- A filesystem for the OpenVZ claim: `/proc/vz` exists, `/proc/bc` does
not, and every other probed path exists with docker-flavoured contents. -/
def fsOpenVZ : FS where
  fileExists := fun p => !(p = "/proc/bc")
  read_file := fun p =>
    if p = "/run/.containerenv" then some "name=\"box\"\n"
    else if p = "/run/systemd/container" then some "docker\n"
    else none

/-- Claim C6: whenever `/proc/vz` exists and `/proc/bc` does not,
`container_name` returns `"OpenVZ"`, whatever the rest of the filesystem
holds. -/
theorem c6_openvz_first (fs : FS) (config : ContainerConfig)
    (h1 : fs.fileExists "/proc/vz" = true)
    (h2 : fs.fileExists "/proc/bc" = false) :
    container_name fs config = some "OpenVZ" := by
  simp [container_name, h1, h2]

/-- Witness for C6 on a filesystem where all other marker files are
present and readable. -/
theorem c6_openvz_first_witness : container_name fsOpenVZ cfgImageMode = some "OpenVZ" :=
  c6_openvz_first fsOpenVZ cfgImageMode (by decide) (by decide)

/-- Claim C7: with `disabled = true` the module produces no output and no
log, for every formatter behaviour and every filesystem state (detection
never influences the result). -/
theorem c7_disabled_no_output (F : Formatter) (fs : FS) (config : ContainerConfig)
    (h : config.disabled = true) :
    module F fs config = ⟨none, []⟩ := by
  simp [module, h]

/-- Witness for C7: a disabled configuration on a filesystem full of
markers, with a formatter that would fail. -/
theorem c7_disabled_no_output_witness :
    module (fun _ _ => Except.error "boom") fsOpenVZ
      ⟨true, false, "$name", "⬢", "red"⟩ = ⟨none, []⟩ :=
  c7_disabled_no_output (fun _ _ => Except.error "boom") fsOpenVZ
    ⟨true, false, "$name", "⬢", "red"⟩ rfl

/-- Claim C9: on any target other than Linux the module function returns
`None` unconditionally, for every context, configuration and filesystem
state. -/
theorem c9_non_linux_none (F : Formatter) (fs : FS) (config : ContainerConfig) :
    module_non_linux F fs config = none :=
  rfl

/-- Claim C10: when the first three probes fail and
`/run/systemd/container` reads as content whose trim is empty, the
catch-all branch still returns `"Systemd"`. -/
theorem c10_empty_trim_systemd (fs : FS) (config : ContainerConfig) (s : String)
    (h1 : (fs.fileExists "/proc/vz" && !fs.fileExists "/proc/bc") = false)
    (h2 : fs.fileExists "/run/host/container-manager" = false)
    (h3 : fs.fileExists "/run/.containerenv" = false)
    (h4 : fs.read_file "/run/systemd/container" = some s)
    (h5 : trimList s.data = []) :
    container_name fs config = some "Systemd" := by
  simp [container_name, h1, h2, h3, h4, h5]

/-- A filesystem where only `/run/systemd/container` is present and its
content is whitespace. -/
def fsBlankSystemd : FS where
  fileExists := fun _ => false
  read_file := fun p => if p = "/run/systemd/container" then some "  \n" else none

/-- Witness for C10 with whitespace-only content. -/
theorem c10_empty_trim_systemd_witness :
    container_name fsBlankSystemd cfgImageMode = some "Systemd" :=
  c10_empty_trim_systemd fsBlankSystemd cfgImageMode "  \n"
    (by decide) (by decide) (by decide) (by decide) (by decide)

/-- A filesystem where `/run/.containerenv` exists but cannot be read,
while `/run/systemd/container` is readable and contains `docker`: the
later probe would match. -/
def fsUnreadableEnv : FS where
  fileExists := fun p => p = "/run/.containerenv" || p = "/run/systemd/container"
  read_file := fun p => if p = "/run/systemd/container" then some "docker\n" else none

/-- Counterexample to claim C1: with `/run/.containerenv` existing but
unreadable and the systemd probe ready to yield `"Docker"`, detection does
not continue to the later probe — it ends with no name at all. -/
theorem c1_counterexample :
    fsUnreadableEnv.fileExists "/run/.containerenv" = true ∧
    fsUnreadableEnv.read_file "/run/.containerenv" = none ∧
    fsUnreadableEnv.read_file "/run/systemd/container" = some "docker\n" ∧
    trimList "docker\n".data = "docker".data ∧
    container_name fsUnreadableEnv cfgImageMode ≠ some "Docker" ∧
    container_name fsUnreadableEnv cfgImageMode = none := by
  refine ⟨by decide, by decide, by decide, by decide, by decide, by decide⟩

/-- Claim C1 as amended: when the earlier probes fail, `/run/.containerenv`
exists and reading it fails, `container_name` returns `none` immediately
(`name_result.ok()` is returned, ending detection); no later probe runs. -/
theorem c1_amended_read_failure_ends (fs : FS) (config : ContainerConfig)
    (h1 : (fs.fileExists "/proc/vz" && !fs.fileExists "/proc/bc") = false)
    (h2 : fs.fileExists "/run/host/container-manager" = false)
    (h3 : fs.fileExists "/run/.containerenv" = true)
    (h4 : fs.read_file "/run/.containerenv" = none) :
    container_name fs config = none := by
  simp [container_name, h1, h2, h3, h4]

/-- Witness for the amended C1 on the counterexample filesystem. -/
theorem c1_amended_read_failure_ends_witness :
    container_name fsUnreadableEnv cfgNameMode = none :=
  c1_amended_read_failure_ends fsUnreadableEnv cfgNameMode
    (by decide) (by decide) (by decide) (by decide)

/-- Claim C2: once the OpenVZ and OCI probes fail, `/run/.containerenv`
exists and reads successfully, the detected name is exactly the parse of
that buffer (`"podman"` fallback included), whatever the rest of the
filesystem — in particular whatever `/run/systemd/container` holds. -/
theorem c2_containerenv_authoritative (fs : FS) (config : ContainerConfig) (buf : String)
    (h1 : (fs.fileExists "/proc/vz" && !fs.fileExists "/proc/bc") = false)
    (h2 : fs.fileExists "/run/host/container-manager" = false)
    (h3 : fs.fileExists "/run/.containerenv" = true)
    (h4 : fs.read_file "/run/.containerenv" = some buf) :
    container_name fs config = some (parseContainerEnv config.use_container_name buf) := by
  simp [container_name, h1, h2, h3, h4]

/-- A filesystem where `/run/.containerenv` is readable but holds no
`name=` or `image=` line, and `/run/systemd/container` holds `docker`. -/
def fsEnvNoMatchingLine : FS where
  fileExists := fun p => p = "/run/.containerenv" || p = "/run/systemd/container"
  read_file := fun p =>
    if p = "/run/.containerenv" then some "HOME=/root\n"
    else if p = "/run/systemd/container" then some "docker\n" else none

/-- Witness for C2: the `"podman"` fallback wins even though the systemd
file says `docker`. -/
theorem c2_containerenv_authoritative_witness :
    container_name fsEnvNoMatchingLine cfgImageMode = some "podman" :=
  (c2_containerenv_authoritative fsEnvNoMatchingLine cfgImageMode "HOME=/root\n"
    (by decide) (by decide) (by decide) (by decide)).trans (by decide)

/-- Claim C3: with the first three probes failing and
`/run/systemd/container` readable, the trimmed content decides: `docker`
gives `"Docker"`, `wsl` gives nothing from this probe and falls through to
the `/.dockerenv` probe, and any other non-empty trim gives `"Systemd"`. -/
theorem c3_systemd_content_cases (fs : FS) (config : ContainerConfig) (s : String)
    (h1 : (fs.fileExists "/proc/vz" && !fs.fileExists "/proc/bc") = false)
    (h2 : fs.fileExists "/run/host/container-manager" = false)
    (h3 : fs.fileExists "/run/.containerenv" = false)
    (h4 : fs.read_file "/run/systemd/container" = some s) :
    (trimList s.data = "docker".data → container_name fs config = some "Docker") ∧
    (trimList s.data = "wsl".data →
      container_name fs config =
        (if fs.fileExists "/.dockerenv" then some "Docker" else none)) ∧
    (trimList s.data ≠ "docker".data → trimList s.data ≠ "wsl".data →
      trimList s.data ≠ [] → container_name fs config = some "Systemd") := by
  refine ⟨fun hd => ?_, fun hw => ?_, fun hd hw _ => ?_⟩
  · simp [container_name, h1, h2, h3, h4, hd]
  · simp [container_name, h1, h2, h3, h4, hw]
  · simp [container_name, h1, h2, h3, h4, hd, hw]

/-- A filesystem where only `/run/systemd/container` exists, holding
`wsl`, and `/.dockerenv` is absent. -/
def fsWslSystemd : FS where
  fileExists := fun p => p = "/run/systemd/container"
  read_file := fun p => if p = "/run/systemd/container" then some "wsl\n" else none

/-- Witness for C3 at the `wsl` suppression case: no name is produced. -/
theorem c3_systemd_content_cases_witness :
    container_name fsWslSystemd cfgImageMode = none :=
  ((c3_systemd_content_cases fsWslSystemd cfgImageMode "wsl\n"
    (by decide) (by decide) (by decide) (by decide)).2.1 (by decide)).trans (by decide)

/-- A filesystem meeting C5's stated preconditions where the OpenVZ probe
nevertheless matches. -/
def fsOpenVZOverDocker : FS where
  fileExists := fun p => p = "/proc/vz" || p = "/run/systemd/container"
  read_file := fun p => if p = "/run/systemd/container" then some "docker" else none

/-- Counterexample to claim C5: `/run/systemd/container` contains `docker`
and `/run/.containerenv` does not exist, yet the detected name is
`"OpenVZ"`, not `"Docker"`, because the OpenVZ probe has priority. -/
theorem c5_counterexample :
    fsOpenVZOverDocker.read_file "/run/systemd/container" = some "docker" ∧
    fsOpenVZOverDocker.fileExists "/run/.containerenv" = false ∧
    container_name fsOpenVZOverDocker cfgImageMode ≠ some "Docker" ∧
    container_name fsOpenVZOverDocker cfgImageMode = some "OpenVZ" := by
  refine ⟨by decide, by decide, by decide, by decide⟩

/-- Claim C5 as amended: additionally requiring that the OpenVZ probe does
not match and the OCI marker is absent, content trimming to `docker` with
`/run/.containerenv` absent yields `"Docker"`. -/
theorem c5_amended_docker_from_systemd (fs : FS) (config : ContainerConfig) (s : String)
    (h1 : (fs.fileExists "/proc/vz" && !fs.fileExists "/proc/bc") = false)
    (h2 : fs.fileExists "/run/host/container-manager" = false)
    (h3 : fs.fileExists "/run/.containerenv" = false)
    (h4 : fs.read_file "/run/systemd/container" = some s)
    (h5 : trimList s.data = "docker".data) :
    container_name fs config = some "Docker" := by
  simp [container_name, h1, h2, h3, h4, h5]

/-- A filesystem where only `/run/systemd/container` exists, containing
`docker`. -/
def fsDockerSystemd : FS where
  fileExists := fun p => p = "/run/systemd/container"
  read_file := fun p => if p = "/run/systemd/container" then some "docker" else none

/-- Witness for the amended C5. -/
theorem c5_amended_docker_from_systemd_witness :
    container_name fsDockerSystemd cfgImageMode = some "Docker" :=
  c5_amended_docker_from_systemd fsDockerSystemd cfgImageMode "docker"
    (by decide) (by decide) (by decide) (by decide) (by decide)

/-- Claim C8: when a name was detected and the formatter fails on the
configured template, the module returns no output and logs a single
warning carrying the formatter's error. -/
theorem c8_formatter_error_degrades (F : Formatter) (fs : FS) (config : ContainerConfig)
    (name e : String)
    (h1 : config.disabled = false)
    (h2 : container_name fs config = some name)
    (h3 : F config.format (resolversFor config name) = Except.error e) :
    (module F fs config).output = none ∧
    (module F fs config).logs = ["Error in module `container`: \n" ++ e] := by
  refine ⟨?_, ?_⟩ <;> simp [module, h1, h2, h3]

/-- A formatter that rejects every template with an unknown-variable
error, as `StringFormatter` does for an unrecognized name. -/
def failingFormatter : Formatter :=
  fun _ _ => Except.error "unknown variable: unknown_var"

/-- Witness for C8 on a filesystem whose systemd probe detects
`"Systemd"`. -/
theorem c8_formatter_error_degrades_witness :
    (module failingFormatter fsBlankSystemd cfgImageMode).output = none ∧
    (module failingFormatter fsBlankSystemd cfgImageMode).logs =
      ["Error in module `container`: \n" ++ "unknown variable: unknown_var"] :=
  c8_formatter_error_degrades failingFormatter fsBlankSystemd cfgImageMode
    "Systemd" "unknown variable: unknown_var" rfl (by decide) rfl

/-- `split_once` characterised by the first occurrence: the part before is
the longest `c`-free run, the part after is what follows that occurrence. -/
theorem splitOnceList_eq (c : Char) (m : List Char) :
    splitOnceList c m =
      if c ∈ m then
        some (m.takeWhile (fun x => x ≠ c), (m.dropWhile (fun x => x ≠ c)).tail)
      else none := by
  induction m with
  | nil => simp [splitOnceList]
  | cons x xs ih =>
    by_cases hx : x = c
    · subst hx
      simp [splitOnceList, List.takeWhile_cons, List.dropWhile_cons]
    · rw [splitOnceList, if_neg hx, ih]
      by_cases hc : c ∈ xs
      · simp [hc, hx, Ne.symm hx, List.takeWhile_cons, List.dropWhile_cons]
      · simp [hc, hx, Ne.symm hx]

/-- The image-mode candidate as the spec words it: trim surrounding double
quotes from the value; if the result contains a `/`, keep only the
substring after the last `/` (the maximal `/`-free suffix); if it contains
no `/`, keep it unchanged. -/
def specImageCandidate (value : List Char) : List Char :=
  let t := trimMatchesList '"' value
  if '/' ∈ t then (t.reverse.takeWhile (fun x => x ≠ '/')).reverse else t

/-- Claim C4: in image mode the per-value processing of the
`/run/.containerenv` probe agrees with the spec's description for every
value, and the spec's concrete example parses to `"fedora-toolbox:35"`. -/
theorem c4_image_mode_processing :
    (∀ value : List Char, processValueList false value = specImageCandidate value) ∧
    parseContainerEnv false "image=\"registry.example.org/fedora-toolbox:35\"" =
      "fedora-toolbox:35" := by
  constructor
  · intro value
    unfold processValueList specImageCandidate rsplitOnceList
    simp only [splitOnceList_eq]
    by_cases h2 : '/' ∈ trimMatchesList '"' value
    · have h : '/' ∈ (trimMatchesList '"' value).reverse := List.mem_reverse.mpr h2
      simp [h, h2]
    · have h : '/' ∉ (trimMatchesList '"' value).reverse := fun hm =>
        h2 (List.mem_reverse.mp hm)
      simp [h, h2]
  · decide
